import Mathlib

/-!
# WatchGraph API — verification of the compliance-tracking core

Shallow embedding of the requirement-applicability and compliance-aggregation
engine of the WatchGraph API (`src/models.py`, `src/app.py`).

The persistent relational store is modelled as an explicit `DBState` record
holding the three tables the core touches (`ai_systems`,
`compliance_requirements`, `requirement_mappings`); every operation of the
core is a pure function from a `DBState` (plus its request payload) to a new
`DBState` together with its response. `datetime.utcnow` is modelled by an
explicit clock value (`now : Nat`) passed into each operation, and the
collision-resistant uuid4 generator by explicit identifier parameters that
callers supply fresh. Python floats are idealised as rationals (`ℚ`).
-/

namespace WatchGraph

/-- Enum `RiskCategory` (models.py:10-15): EU AI Act risk categories. -/
inductive RiskCategory where
  | unacceptable
  | high
  | limited
  | minimal
deriving DecidableEq, Repr

/-- The string value of a `RiskCategory` member (`str, enum.Enum`). -/
def RiskCategory.value : RiskCategory → String
  | .unacceptable => "unacceptable"
  | .high => "high"
  | .limited => "limited"
  | .minimal => "minimal"

/-- Enum `ComplianceStatus` (models.py:17-22): compliance status for requirements. -/
inductive ComplianceStatus where
  | not_started
  | in_progress
  | completed
  | non_compliant
deriving DecidableEq, Repr

/-- The string value of a `ComplianceStatus` member (`str, enum.Enum`). -/
def ComplianceStatus.value : ComplianceStatus → String
  | .not_started => "not_started"
  | .in_progress => "in_progress"
  | .completed => "completed"
  | .non_compliant => "non_compliant"

/-- A row of `ai_systems` (models.py:24-44). Timestamps are clock values. -/
structure AISystem where
  id : String
  name : String
  description : Option String
  risk_category : RiskCategory
  organization : Option String
  department : Option String
  owner_email : Option String
  created_at : Nat
  updated_at : Nat
deriving DecidableEq, Repr

/-- A row of `compliance_requirements` (models.py:46-59).  `applies_to` is the
JSON list of risk-category strings stored in the `applies_to` column
(models.py:56), as produced by `json.loads` at read time (app.py:149). -/
structure ComplianceRequirement where
  id : String
  article : String
  title : String
  description : String
  applies_to : List String
deriving DecidableEq, Repr

/-- A row of `requirement_mappings` (models.py:61-80): a tracking record
linking one AI system and one requirement. -/
structure RequirementMapping where
  id : String
  ai_system_id : String
  requirement_id : String
  status : ComplianceStatus
  notes : Option String
  updated_by : Option String
  created_at : Nat
  updated_at : Nat
deriving DecidableEq, Repr

/-- The persisted state the core reads and writes: the three tables, each a
list of rows in insertion order (the `Evidence` table is untouched by the
operations modelled here and is omitted). -/
structure DBState where
  systems : List AISystem
  catalog : List ComplianceRequirement
  mappings : List RequirementMapping
deriving DecidableEq, Repr

/-- Request body `AISystemCreate` (app.py:12-22).  With
`use_enum_values = True` the risk category crosses the boundary as its string
value; membership tests below therefore compare `risk_category.value` against
the parsed `applies_to` strings, exactly as `system.risk_category in
applies_to` does at app.py:152. -/
structure AISystemCreate where
  name : String
  description : Option String
  risk_category : RiskCategory
  organization : Option String
  department : Option String
  owner_email : Option String
deriving DecidableEq, Repr

/-- Response body `AISystemResponse` (app.py:24-37). -/
structure AISystemResponse where
  id : String
  name : String
  description : Option String
  risk_category : String
  organization : Option String
  department : Option String
  owner_email : Option String
  created_at : Nat
  updated_at : Nat
deriving DecidableEq, Repr

/-- Request body `RequirementStatusUpdate` (app.py:39-46).  `status` is
validated against the closed enum at the boundary; `notes` and `updated_by`
default to `None`, so an omitted field and an explicit `null` both arrive as
`none`. -/
structure RequirementStatusUpdate where
  status : ComplianceStatus
  notes : Option String
  updated_by : Option String
deriving DecidableEq, Repr

/-- The catalog subset applicable to a risk category: the requirements whose
parsed `applies_to` list contains the system's risk-category string
(the loop filter of app.py:147-152). -/
def applicableReqs (catalog : List ComplianceRequirement) (risk : RiskCategory) :
    List ComplianceRequirement :=
  catalog.filter fun req => risk.value ∈ req.applies_to

/-- The tracking records materialised by the applicability loop
(app.py:147-159): one `RequirementMapping` per applicable requirement, with
status `NOT_STARTED` and the column defaults `notes = None`,
`updated_by = None` (models.py:69-75).  `mkMapId` supplies the fresh uuid4
primary key for each created row, indexed by the requirement it tracks. -/
def newMappingsFor (catalog : List ComplianceRequirement) (risk : RiskCategory)
    (sysId : String) (mkMapId : String → String) (now : Nat) :
    List RequirementMapping :=
  (applicableReqs catalog risk).map fun req =>
    { id := mkMapId req.id
      ai_system_id := sysId
      requirement_id := req.id
      status := ComplianceStatus.not_started
      notes := none
      updated_by := none
      created_at := now
      updated_at := now }

/-- Endpoint `create_ai_system` (app.py:105-176).  The endpoint performs two separate
commits: the system row alone is committed first (app.py:139-141), then the
catalog is read (app.py:144) and the matching tracking records are committed
(app.py:147-161).  `catalogReadable` models whether the catalog read at
app.py:144 succeeds; when it fails the exception propagates after the first
commit, so the returned state keeps the already-committed system row with no
tracking records, and no response is produced. -/
def create_ai_system (st : DBState) (input : AISystemCreate) (sysId : String)
    (mkMapId : String → String) (now : Nat) (catalogReadable : Bool) :
    DBState × Option AISystemResponse :=
  let sys : AISystem :=
    { id := sysId
      name := input.name
      description := input.description
      risk_category := input.risk_category
      organization := input.organization
      department := input.department
      owner_email := input.owner_email
      created_at := now
      updated_at := now }
  let st1 : DBState := { st with systems := st.systems ++ [sys] }
  if catalogReadable then
    let maps := newMappingsFor st1.catalog input.risk_category sysId mkMapId now
    ({ st1 with mappings := st1.mappings ++ maps },
     some
       { id := sysId
         name := input.name
         description := input.description
         risk_category := input.risk_category.value
         organization := input.organization
         department := input.department
         owner_email := input.owner_email
         created_at := now
         updated_at := now })
  else
    (st1, none)

/-- Endpoint `get_ai_system` (app.py:202-224): first row with the requested id, or a
404 signal (`none`).  Read-only: takes no state out. -/
def get_ai_system (st : DBState) (system_id : String) : Option AISystemResponse :=
  match st.systems.find? (fun s => s.id = system_id) with
  | none => none
  | some s =>
    some
      { id := s.id
        name := s.name
        description := s.description
        risk_category := s.risk_category.value
        organization := s.organization
        department := s.department
        owner_email := s.owner_email
        created_at := s.created_at
        updated_at := s.updated_at }

/-- Rounding to 2 decimal places with ties to even, the behaviour of Python's
built-in `round(x, 2)` (app.py:337), on the rational idealisation of the
float `compliance_percentage`: with `x = q * 100` in lowest terms, `n = ⌊x⌋`
and `rem / x.den` the fractional part, `x` is rounded down when the
fractional part is below one half, up when above, and to the even neighbour
on an exact tie. -/
def round2 (q : ℚ) : ℚ :=
  let x : ℚ := q * 100
  let n : ℤ := Int.fdiv x.num x.den
  let rem : ℤ := x.num - n * x.den
  let r : ℤ :=
    if 2 * rem < (x.den : ℤ) then n
    else if (x.den : ℤ) < 2 * rem then n + 1
    else if n % 2 = 0 then n else n + 1
  (r : ℚ) / 100

/-- The JSON object returned by `get_system_compliance` (app.py:309-316 and
app.py:332-343).  `status_breakdown` is the `status_counts` dict as an
association list in its insertion order; the four `requirements_*` keys are
absent (`none`) in the zero-record response (app.py:309-316), which carries
only the empty `status_breakdown`. -/
structure ComplianceSummary where
  system_id : String
  system_name : String
  risk_category : String
  total_requirements : Nat
  compliance_percentage : ℚ
  status_breakdown : List (String × Nat)
  requirements_completed : Option Nat
  requirements_in_progress : Option Nat
  requirements_not_started : Option Nat
  requirements_non_compliant : Option Nat
deriving DecidableEq, Repr

/-- The tracking records of one system: the filtered query of app.py:303-305
(also app.py:263-265). -/
def systemMappings (st : DBState) (system_id : String) : List RequirementMapping :=
  st.mappings.filter fun m => m.ai_system_id = system_id

/-- One entry of the `status_counts` dict (app.py:319-327): how many of the
given tracking records carry the given status. -/
def statusCount (l : List RequirementMapping) (s : ComplianceStatus) : Nat :=
  l.countP fun m => m.status = s

/-- Endpoint `get_system_compliance` (app.py:288-343).  404 (`none`) when the system
does not exist (app.py:298-300); otherwise counts the system's tracking
records per status over the fixed dict `status_counts` (app.py:319-327) and
computes `compliance_percentage = completed / total * 100` rounded to two
decimals (app.py:330-337).  Read-only. -/
def get_system_compliance (st : DBState) (system_id : String) :
    Option ComplianceSummary :=
  match st.systems.find? (fun s => s.id = system_id) with
  | none => none
  | some system =>
    let mappings := systemMappings st system_id
    let total := mappings.length
    if total = 0 then
      some
        { system_id := system_id
          system_name := system.name
          risk_category := system.risk_category.value
          total_requirements := 0
          compliance_percentage := 0
          status_breakdown := []
          requirements_completed := none
          requirements_in_progress := none
          requirements_not_started := none
          requirements_non_compliant := none }
    else
      let ns := statusCount mappings ComplianceStatus.not_started
      let ip := statusCount mappings ComplianceStatus.in_progress
      let co := statusCount mappings ComplianceStatus.completed
      let nc := statusCount mappings ComplianceStatus.non_compliant
      some
        { system_id := system_id
          system_name := system.name
          risk_category := system.risk_category.value
          total_requirements := total
          compliance_percentage := round2 ((co : ℚ) / (total : ℚ) * 100)
          status_breakdown :=
            [("not_started", ns), ("in_progress", ip),
             ("completed", co), ("non_compliant", nc)]
          requirements_completed := some co
          requirements_in_progress := some ip
          requirements_not_started := some ns
          requirements_non_compliant := some nc }

/-- The in-memory field assignments of `update_requirement_status`
(app.py:376-380): the status is always assigned; `notes` and `updated_by`
are assigned only when the request carries them (`is not None`). -/
def applyUpdate (upd : RequirementStatusUpdate) (m : RequirementMapping) :
    RequirementMapping :=
  { m with
    status := upd.status
    notes := match upd.notes with | none => m.notes | some s => some s
    updated_by := match upd.updated_by with | none => m.updated_by | some s => some s }

/-- The effect of `db.commit()` (app.py:382) on the mutated row.  SQLAlchemy
emits an UPDATE statement for a dirty object only when some attribute has a
net change relative to its loaded value (documented behaviour of the flush
process: an attribute set to a value equal to its committed value produces no
UPDATE).  The `onupdate=datetime.utcnow` default of `updated_at`
(models.py:75) runs only when that UPDATE statement is emitted, so a fully
no-op assignment leaves the row, timestamp included, untouched. -/
def commitMapping (now : Nat) (old new : RequirementMapping) : RequirementMapping :=
  if new = old then old else { new with updated_at := now }

/-- Replace the first element satisfying `p` by its image under `f`: the
effect of mutating the object returned by `.first()` on the stored table. -/
def updateFirst (p : α → Bool) (f : α → α) : List α → List α
  | [] => []
  | x :: xs => if p x then f x :: xs else x :: updateFirst p f xs

/-- The JSON object returned by `update_requirement_status` (app.py:393-403),
restricted to the fields drawn from the mapping row itself (the joined
requirement display fields `article`/`title` are pass-through reads of the
catalog and carry no update semantics). -/
structure StatusUpdateResponse where
  mapping_id : String
  requirement_id : String
  old_status : String
  new_status : String
  notes : Option String
  updated_by : Option String
  updated_at : Nat
deriving DecidableEq, Repr

/-- Endpoint `update_requirement_status` (app.py:346-403).  Looks up the first mapping
row with the requested id (app.py:365-367); a missing row is a 404 with the
state untouched (app.py:369-370).  Otherwise records the old status
(app.py:373), assigns the fields (app.py:376-380), commits
(`commitMapping`), and answers with the old and new status and the row's
stored fields after `db.refresh` (app.py:383, 393-403). -/
def update_requirement_status (st : DBState) (mappingId : String)
    (upd : RequirementStatusUpdate) (now : Nat) :
    DBState × Option StatusUpdateResponse :=
  match st.mappings.find? (fun m => m.id = mappingId) with
  | none => (st, none)
  | some m =>
    let old_status := m.status.value
    let m2 := commitMapping now m (applyUpdate upd m)
    ({ st with
        mappings := updateFirst (fun x => x.id = mappingId) (fun _ => m2) st.mappings },
     some
       { mapping_id := m2.id
         requirement_id := m2.requirement_id
         old_status := old_status
         new_status := m2.status.value
         notes := m2.notes
         updated_by := m2.updated_by
         updated_at := m2.updated_at })

/-- The states of the store reachable by the specified operations from a
freshly seeded store: an initial state holds an arbitrary catalog with
pairwise-distinct primary keys and no systems or mappings (catalog rows are
reference data created out-of-band); each step is one run of
`create_ai_system` — with a system id fresh among the stored systems, as
uuid4 primary keys are, and the catalog read either succeeding or failing —
or one run of `update_requirement_status`.  The read endpoints take no state
out and so add no transitions. -/
inductive Reachable : DBState → Prop where
  | init (catalog : List ComplianceRequirement)
      (hnodup : (catalog.map (fun r => r.id)).Nodup) :
      Reachable { systems := [], catalog := catalog, mappings := [] }
  | register {st : DBState} (hst : Reachable st)
      (input : AISystemCreate) (sysId : String) (mkMapId : String → String)
      (now : Nat) (ok : Bool)
      (hfresh : ∀ s ∈ st.systems, s.id ≠ sysId) :
      Reachable (create_ai_system st input sysId mkMapId now ok).1
  | update {st : DBState} (hst : Reachable st) (mappingId : String)
      (upd : RequirementStatusUpdate) (now : Nat) :
      Reachable (update_requirement_status st mappingId upd now).1

/-- The uniqueness invariant of §3 of the spec: at most one tracking record
per (system, requirement) pair. -/
def PairUnique (st : DBState) : Prop :=
  ∀ sysId reqId : String,
    st.mappings.countP
      (fun m => m.ai_system_id = sysId ∧ m.requirement_id = reqId) ≤ 1

/-- The store invariants the operations maintain together: catalog primary
keys are pairwise distinct, every tracking record references a stored
system, and the (system, requirement) pairs are unique. -/
def StoreInv (st : DBState) : Prop :=
  (st.catalog.map (fun r => r.id)).Nodup ∧
  (∀ m ∈ st.mappings, ∃ s ∈ st.systems, s.id = m.ai_system_id) ∧
  PairUnique st

/-! ### Concrete fixtures

Small concrete table contents used to instantiate the theorems below on
closed inputs. -/

/-- A catalog requirement applying to high-risk systems only. -/
def reqRisk : ComplianceRequirement :=
  { id := "r1"
    article := "Article 9"
    title := "Risk management system"
    description := "Establish and maintain a risk management system"
    applies_to := ["high"] }

/-- A catalog requirement applying to high- and limited-risk systems. -/
def reqTransparency : ComplianceRequirement :=
  { id := "r2"
    article := "Article 13"
    title := "Transparency"
    description := "Transparency and provision of information"
    applies_to := ["high", "limited"] }

/-- A registration request for a high-risk system. -/
def demoInput : AISystemCreate :=
  { name := "credit-scoring"
    description := none
    risk_category := RiskCategory.high
    organization := none
    department := none
    owner_email := none }

/-- A freshly seeded store: two catalog rows, no systems, no mappings. -/
def seededSt : DBState :=
  { systems := [], catalog := [reqRisk, reqTransparency], mappings := [] }

/-- An already-registered system row. -/
def demoSystem : AISystem :=
  { id := "s1"
    name := "credit-scoring"
    description := none
    risk_category := RiskCategory.high
    organization := none
    department := none
    owner_email := none
    created_at := 0
    updated_at := 0 }

/-- A tracking record for `demoSystem` with a given id, requirement and
status. -/
def demoMapping (i rid : String) (status : ComplianceStatus) : RequirementMapping :=
  { id := i
    ai_system_id := "s1"
    requirement_id := rid
    status := status
    notes := none
    updated_by := none
    created_at := 0
    updated_at := 0 }

/-- A store where `demoSystem` has four tracking records with statuses
`[completed, completed, in_progress, not_started]`. -/
def fourStatusSt : DBState :=
  { systems := [demoSystem]
    catalog := []
    mappings :=
      [demoMapping "m1" "r1" ComplianceStatus.completed,
       demoMapping "m2" "r2" ComplianceStatus.completed,
       demoMapping "m3" "r3" ComplianceStatus.in_progress,
       demoMapping "m4" "r4" ComplianceStatus.not_started] }

/-- A store where `demoSystem` exists with zero tracking records. -/
def zeroRecordSt : DBState :=
  { systems := [demoSystem], catalog := [], mappings := [] }

/-- A tracking record carrying earlier notes and updater and an old
last-modified timestamp. -/
def notedMapping : RequirementMapping :=
  { id := "m1"
    ai_system_id := "s1"
    requirement_id := "r1"
    status := ComplianceStatus.not_started
    notes := some "initial gap analysis done"
    updated_by := some "alice@example.com"
    created_at := 5
    updated_at := 5 }

/-- A store holding `demoSystem` and `notedMapping`. -/
def notedSt : DBState :=
  { systems := [demoSystem], catalog := [], mappings := [notedMapping] }

/-- A status-update request carrying only a new status: `notes` and
`updated_by` omitted. -/
def statusOnlyUpdate : RequirementStatusUpdate :=
  { status := ComplianceStatus.in_progress, notes := none, updated_by := none }

/-- A status-update request repeating the stored status of `notedMapping`
with `notes` and `updated_by` omitted: a full no-op. -/
def noopUpdate : RequirementStatusUpdate :=
  { status := ComplianceStatus.not_started, notes := none, updated_by := none }

/-! ### Helper lemmas -/

/-- In a catalog whose ids are pairwise distinct, a member `Q` is counted by
id in a filtered sub-catalog exactly once when it passes the filter and not
at all otherwise. -/
theorem countP_filter_eq_ite (p : ComplianceRequirement → Bool)
    (Q : ComplianceRequirement) :
    ∀ l : List ComplianceRequirement,
      (l.map (fun r => r.id)).Nodup → Q ∈ l →
      (l.filter p).countP (fun r => r.id = Q.id) = if p Q then 1 else 0 := by
  intro l
  induction l with
  | nil => intro _ h; exact absurd h (List.not_mem_nil Q)
  | cons r rs ih =>
    intro hnd hmem
    rw [List.map_cons, List.nodup_cons] at hnd
    obtain ⟨hr, hnd'⟩ := hnd
    rcases List.mem_cons.mp hmem with rfl | hmem'
    · have hzero : (rs.filter p).countP (fun x => x.id = Q.id) = 0 := by
        rw [List.countP_eq_zero]
        intro x hx
        have hx' := List.mem_of_mem_filter hx
        simp only [decide_eq_true_eq]
        intro hid
        exact hr (hid ▸ List.mem_map_of_mem (fun r => r.id) hx')
      by_cases hp : p Q
      · simp [List.filter_cons, hp, List.countP_cons, hzero]
      · simp [List.filter_cons, hp, hzero]
    · have hne : r.id ≠ Q.id := by
        intro h
        exact hr (h ▸ List.mem_map_of_mem (fun x => x.id) hmem')
      have hrec := ih hnd' hmem'
      by_cases hp : p r
      · simp [List.filter_cons, hp, List.countP_cons, hne, hrec]
      · simp [List.filter_cons, hp, hrec]

/-- In a catalog whose ids are pairwise distinct, at most one row carries a
given id. -/
theorem countP_id_le_one (x : String) :
    ∀ l : List ComplianceRequirement, (l.map (fun r => r.id)).Nodup →
      l.countP (fun r => r.id = x) ≤ 1 := by
  intro l
  induction l with
  | nil => simp
  | cons r rs ih =>
    intro hnd
    rw [List.map_cons, List.nodup_cons] at hnd
    obtain ⟨hr, hnd'⟩ := hnd
    by_cases hx : r.id = x
    · have hzero : rs.countP (fun q => q.id = x) = 0 := by
        rw [List.countP_eq_zero]
        intro q hq
        simp only [decide_eq_true_eq]
        intro hid
        exact hr ((hx ▸ hid.symm : r.id = q.id) ▸ List.mem_map_of_mem (fun y => y.id) hq)
      simp [List.countP_cons, hx, hzero]
    · simpa [List.countP_cons, hx] using ih hnd'

/-- C1. For every risk category and every requirement of a duplicate-free
catalog, registering a fresh system creates exactly one tracking record for
that requirement exactly when the risk-category string is in the
requirement's parsed applicability list, and every created record starts
with status `not_started` and no notes or updater. -/
theorem create_assigns_iff_applicable
    (st : DBState) (input : AISystemCreate) (sysId : String)
    (mkMapId : String → String) (now : Nat) (Q : ComplianceRequirement)
    (hnodup : (st.catalog.map (fun r => r.id)).Nodup)
    (hQ : Q ∈ st.catalog)
    (hfresh : ∀ m ∈ st.mappings, m.ai_system_id ≠ sysId) :
    ((create_ai_system st input sysId mkMapId now true).1.mappings.countP
        (fun m => m.ai_system_id = sysId ∧ m.requirement_id = Q.id)
      = if input.risk_category.value ∈ Q.applies_to then 1 else 0)
    ∧ ∀ m ∈ (create_ai_system st input sysId mkMapId now true).1.mappings,
        m.ai_system_id = sysId →
        m.status = ComplianceStatus.not_started ∧ m.notes = none ∧
        m.updated_by = none := by
  constructor
  · have hold : st.mappings.countP
        (fun m => m.ai_system_id = sysId ∧ m.requirement_id = Q.id) = 0 := by
      rw [List.countP_eq_zero]
      intro m hm
      simp only [decide_eq_true_eq]
      rintro ⟨h1, -⟩
      exact hfresh m hm h1
    have hnew := countP_filter_eq_ite
      (fun req => decide (input.risk_category.value ∈ req.applies_to)) Q
      st.catalog hnodup hQ
    simp only [create_ai_system, newMappingsFor, applicableReqs,
      List.countP_append, List.countP_map, hold, if_true, Nat.zero_add]
    simp only [Function.comp_def, decide_eq_true_eq]
    simp only [decide_eq_true_eq] at hnew
    simpa using hnew
  · intro m hm hsys
    simp only [create_ai_system, if_true, List.mem_append] at hm
    rcases hm with hm | hm
    · exact absurd hsys (hfresh m hm)
    · simp only [newMappingsFor, List.mem_map] at hm
      obtain ⟨req, -, rfl⟩ := hm
      exact ⟨rfl, rfl, rfl⟩

/-- C2 (code bug).  When the catalog read of `create_ai_system` fails, the
already-committed system row stays visible with zero tracking records even
though the catalog holds requirements applicable to it: the partial state
the atomicity requirement forbids.  Here the seeded catalog is readable-risk
nonempty (`applicableReqs` yields both rows for a high-risk system), yet the
failed registration leaves the system with no tracking records and no
response. -/
theorem create_not_atomic_on_catalog_failure :
    ((create_ai_system seededSt demoInput "sys-1" (fun r => "map-" ++ r) 7 false).2
      = none)
    ∧ ((create_ai_system seededSt demoInput "sys-1" (fun r => "map-" ++ r) 7 false).1.systems.map
        (fun s => s.id) = ["sys-1"])
    ∧ ((create_ai_system seededSt demoInput "sys-1" (fun r => "map-" ++ r) 7 false).1.mappings
      = [])
    ∧ applicableReqs seededSt.catalog demoInput.risk_category ≠ [] := by
  refine ⟨rfl, rfl, rfl, ?_⟩
  decide

/-- Witness for C1: registering a fresh high-risk system against the seeded
two-row catalog creates exactly one tracking record for `reqRisk`, and every
created record starts not-started with no notes or updater. -/
theorem create_assigns_iff_applicable_witness :
    (seededSt.catalog.map (fun r => r.id)).Nodup ∧
    reqRisk ∈ seededSt.catalog ∧
    (∀ m ∈ seededSt.mappings, m.ai_system_id ≠ "sys-1") ∧
    (((create_ai_system seededSt demoInput "sys-1" (fun r => "map-" ++ r) 7 true).1.mappings.countP
        (fun m => m.ai_system_id = "sys-1" ∧ m.requirement_id = reqRisk.id)
      = if demoInput.risk_category.value ∈ reqRisk.applies_to then 1 else 0)
    ∧ ∀ m ∈ (create_ai_system seededSt demoInput "sys-1" (fun r => "map-" ++ r) 7 true).1.mappings,
        m.ai_system_id = "sys-1" →
        m.status = ComplianceStatus.not_started ∧ m.notes = none ∧
        m.updated_by = none) :=
  ⟨by decide, by decide, by decide,
   create_assigns_iff_applicable seededSt demoInput "sys-1" (fun r => "map-" ++ r) 7 reqRisk
     (by decide) (by decide) (by decide)⟩

/-- The non-empty branch of `get_system_compliance` written out: the summary
record it returns for an existing system with at least one tracking
record. -/
theorem get_system_compliance_eq_of_pos (st : DBState) (sid : String) (sys : AISystem)
    (hfind : st.systems.find? (fun s => s.id = sid) = some sys)
    (hne : systemMappings st sid ≠ []) :
    get_system_compliance st sid =
      some
        { system_id := sid
          system_name := sys.name
          risk_category := sys.risk_category.value
          total_requirements := (systemMappings st sid).length
          compliance_percentage :=
            round2 ((statusCount (systemMappings st sid) ComplianceStatus.completed : ℚ)
              / ((systemMappings st sid).length : ℚ) * 100)
          status_breakdown :=
            [("not_started", statusCount (systemMappings st sid) ComplianceStatus.not_started),
             ("in_progress", statusCount (systemMappings st sid) ComplianceStatus.in_progress),
             ("completed", statusCount (systemMappings st sid) ComplianceStatus.completed),
             ("non_compliant", statusCount (systemMappings st sid) ComplianceStatus.non_compliant)]
          requirements_completed :=
            some (statusCount (systemMappings st sid) ComplianceStatus.completed)
          requirements_in_progress :=
            some (statusCount (systemMappings st sid) ComplianceStatus.in_progress)
          requirements_not_started :=
            some (statusCount (systemMappings st sid) ComplianceStatus.not_started)
          requirements_non_compliant :=
            some (statusCount (systemMappings st sid) ComplianceStatus.non_compliant) } := by
  have hlen : ¬ (systemMappings st sid).length = 0 := by
    simpa [List.length_eq_zero] using hne
  simp only [get_system_compliance, hfind]
  rw [if_neg hlen]

/-- C3. For an existing system with at least one tracking record, the
summary carries a count for every status of the closed set (zero-filled when
unused, since `countP` of an unused status is 0), a completion percentage of
`completed / total * 100` rounded to two decimals, and the four raw counts
individually. -/
theorem summary_breakdown_and_percentage (st : DBState) (sid : String) (sys : AISystem)
    (hfind : st.systems.find? (fun s => s.id = sid) = some sys)
    (hne : systemMappings st sid ≠ []) :
    ∃ s, get_system_compliance st sid = some s ∧
      s.total_requirements = (systemMappings st sid).length ∧
      s.status_breakdown =
        [("not_started", statusCount (systemMappings st sid) ComplianceStatus.not_started),
         ("in_progress", statusCount (systemMappings st sid) ComplianceStatus.in_progress),
         ("completed", statusCount (systemMappings st sid) ComplianceStatus.completed),
         ("non_compliant", statusCount (systemMappings st sid) ComplianceStatus.non_compliant)] ∧
      s.compliance_percentage =
        round2 ((statusCount (systemMappings st sid) ComplianceStatus.completed : ℚ)
          / ((systemMappings st sid).length : ℚ) * 100) ∧
      s.requirements_completed =
        some (statusCount (systemMappings st sid) ComplianceStatus.completed) ∧
      s.requirements_in_progress =
        some (statusCount (systemMappings st sid) ComplianceStatus.in_progress) ∧
      s.requirements_not_started =
        some (statusCount (systemMappings st sid) ComplianceStatus.not_started) ∧
      s.requirements_non_compliant =
        some (statusCount (systemMappings st sid) ComplianceStatus.non_compliant) :=
  ⟨_, get_system_compliance_eq_of_pos st sid sys hfind hne,
   rfl, rfl, rfl, rfl, rfl, rfl, rfl⟩

/-- Witness for C3, the spec's worked example: statuses
`[completed, completed, in_progress, not_started]` give total 4,
completed 2, in-progress 1, not-started 1, non-compliant 0 and a completion
percentage of exactly 50. -/
theorem summary_breakdown_and_percentage_witness :
    fourStatusSt.systems.find? (fun s => s.id = "s1") = some demoSystem ∧
    systemMappings fourStatusSt "s1" ≠ [] ∧
    ∃ s, get_system_compliance fourStatusSt "s1" = some s ∧
      s.total_requirements = 4 ∧
      s.status_breakdown =
        [("not_started", 1), ("in_progress", 1), ("completed", 2), ("non_compliant", 0)] ∧
      s.compliance_percentage = 50 ∧
      s.requirements_completed = some 2 ∧
      s.requirements_in_progress = some 1 ∧
      s.requirements_not_started = some 1 ∧
      s.requirements_non_compliant = some 0 := by
  refine ⟨by decide, by decide, ?_⟩
  obtain ⟨s, hs, h1, h2, h3, h4, h5, h6, h7⟩ :=
    summary_breakdown_and_percentage fourStatusSt "s1" demoSystem (by decide) (by decide)
  have hco : statusCount (systemMappings fourStatusSt "s1") ComplianceStatus.completed = 2 := by
    decide
  have hlen : (systemMappings fourStatusSt "s1").length = 4 := by decide
  refine ⟨s, hs, ?_, ?_, ?_, ?_, ?_, ?_, ?_⟩
  · rw [h1]; decide
  · rw [h2]; decide
  · rw [h3, hco, hlen]; norm_num [round2]
  · rw [h4]; decide
  · rw [h5]; decide
  · rw [h6]; decide
  · rw [h7]; decide

/-- Counterexample to C4 as stated: for an existing system with zero
tracking records the summary succeeds, but its status breakdown is the empty
dict (app.py:315), so the closed-set statuses are not present with count
zero — looking up `"not_started"` finds nothing. -/
theorem zero_record_breakdown_missing_statuses :
    (get_system_compliance zeroRecordSt "s1").isSome = true ∧
    (get_system_compliance zeroRecordSt "s1").map (fun s => s.status_breakdown)
      = some [] ∧
    (get_system_compliance zeroRecordSt "s1").map
      (fun s => s.status_breakdown.lookup "not_started") = some none := by
  refine ⟨rfl, rfl, rfl⟩

/-- C4 (amended). For every existing system with zero tracking records the
summary succeeds (not an error) and reports total 0, completion percentage
0, and an **empty** status breakdown containing no statuses at all (and no
individual per-status count fields). -/
theorem summary_zero_records (st : DBState) (sid : String) (sys : AISystem)
    (hfind : st.systems.find? (fun s => s.id = sid) = some sys)
    (hempty : systemMappings st sid = []) :
    get_system_compliance st sid =
      some
        { system_id := sid
          system_name := sys.name
          risk_category := sys.risk_category.value
          total_requirements := 0
          compliance_percentage := 0
          status_breakdown := []
          requirements_completed := none
          requirements_in_progress := none
          requirements_not_started := none
          requirements_non_compliant := none } := by
  simp only [get_system_compliance, hfind, hempty]
  rfl

/-- Witness for the amended C4 at a system with no tracking records. -/
theorem summary_zero_records_witness :
    zeroRecordSt.systems.find? (fun s => s.id = "s1") = some demoSystem ∧
    systemMappings zeroRecordSt "s1" = [] ∧
    get_system_compliance zeroRecordSt "s1" =
      some
        { system_id := "s1"
          system_name := "credit-scoring"
          risk_category := "high"
          total_requirements := 0
          compliance_percentage := 0
          status_breakdown := []
          requirements_completed := none
          requirements_in_progress := none
          requirements_not_started := none
          requirements_non_compliant := none } :=
  ⟨by decide, by decide,
   summary_zero_records zeroRecordSt "s1" demoSystem (by decide) (by decide)⟩

/-- The four statuses of the closed set partition any list of tracking
records: their counts sum to the list length. -/
theorem statusCount_partition (l : List RequirementMapping) :
    statusCount l ComplianceStatus.not_started
      + statusCount l ComplianceStatus.in_progress
      + statusCount l ComplianceStatus.completed
      + statusCount l ComplianceStatus.non_compliant = l.length := by
  induction l with
  | nil => rfl
  | cons m t ih =>
    simp only [statusCount, List.countP_cons, List.length_cons] at *
    cases h : m.status <;> simp [h] <;> omega

/-- C10. For an existing system with at least one tracking record, the four
breakdown counts sum exactly to `total_requirements`, and each individually
exposed `requirements_*` field equals the corresponding entry of the
breakdown mapping. -/
theorem summary_counts_sum_and_match_breakdown (st : DBState) (sid : String)
    (sys : AISystem)
    (hfind : st.systems.find? (fun s => s.id = sid) = some sys)
    (hne : systemMappings st sid ≠ []) :
    ∃ s, get_system_compliance st sid = some s ∧
      (s.status_breakdown.map Prod.snd).sum = s.total_requirements ∧
      s.requirements_not_started = s.status_breakdown.lookup "not_started" ∧
      s.requirements_in_progress = s.status_breakdown.lookup "in_progress" ∧
      s.requirements_completed = s.status_breakdown.lookup "completed" ∧
      s.requirements_non_compliant = s.status_breakdown.lookup "non_compliant" := by
  refine ⟨_, get_system_compliance_eq_of_pos st sid sys hfind hne, ?_, rfl, rfl, rfl, rfl⟩
  have h := statusCount_partition (systemMappings st sid)
  simp only [List.map_cons, List.map_nil, List.sum_cons, List.sum_nil]
  omega

/-- Witness for C10 at the four-record example store. -/
theorem summary_counts_sum_and_match_breakdown_witness :
    fourStatusSt.systems.find? (fun s => s.id = "s1") = some demoSystem ∧
    systemMappings fourStatusSt "s1" ≠ [] ∧
    ∃ s, get_system_compliance fourStatusSt "s1" = some s ∧
      (s.status_breakdown.map Prod.snd).sum = s.total_requirements ∧
      s.requirements_not_started = s.status_breakdown.lookup "not_started" ∧
      s.requirements_in_progress = s.status_breakdown.lookup "in_progress" ∧
      s.requirements_completed = s.status_breakdown.lookup "completed" ∧
      s.requirements_non_compliant = s.status_breakdown.lookup "non_compliant" :=
  ⟨by decide, by decide,
   summary_counts_sum_and_match_breakdown fourStatusSt "s1" demoSystem
     (by decide) (by decide)⟩

/-- Committing never alters the status the assignment wrote. -/
theorem commitMapping_status (now : Nat) (o n : RequirementMapping) :
    (commitMapping now o n).status = n.status := by
  unfold commitMapping
  split
  · rename_i h; rw [h]
  · rfl

/-- Committing never alters the notes the assignment wrote. -/
theorem commitMapping_notes (now : Nat) (o n : RequirementMapping) :
    (commitMapping now o n).notes = n.notes := by
  unfold commitMapping
  split
  · rename_i h; rw [h]
  · rfl

/-- Committing never alters the updater the assignment wrote. -/
theorem commitMapping_updated_by (now : Nat) (o n : RequirementMapping) :
    (commitMapping now o n).updated_by = n.updated_by := by
  unfold commitMapping
  split
  · rename_i h; rw [h]
  · rfl

/-- Committing never alters the system reference. -/
theorem commitMapping_ai_system_id (now : Nat) (o n : RequirementMapping) :
    (commitMapping now o n).ai_system_id = n.ai_system_id := by
  unfold commitMapping
  split
  · rename_i h; rw [h]
  · rfl

/-- Committing never alters the requirement reference. -/
theorem commitMapping_requirement_id (now : Nat) (o n : RequirementMapping) :
    (commitMapping now o n).requirement_id = n.requirement_id := by
  unfold commitMapping
  split
  · rename_i h; rw [h]
  · rfl

/-- Committing never alters the creation timestamp. -/
theorem commitMapping_created_at (now : Nat) (o n : RequirementMapping) :
    (commitMapping now o n).created_at = n.created_at := by
  unfold commitMapping
  split
  · rename_i h; rw [h]
  · rfl

/-- The last-modified timestamp after `commit`: refreshed exactly when some
column has a net change. -/
theorem commitMapping_updated_at (now : Nat) (o n : RequirementMapping) :
    (commitMapping now o n).updated_at = if n = o then o.updated_at else now := by
  unfold commitMapping
  split
  · rfl
  · rfl

/-- C6. Updating an existing tracking record with `notes` absent leaves the
stored notes unchanged, and with `updated_by` absent leaves the stored
updater unchanged; an explicitly provided value overwrites the stored one;
and the system reference, requirement reference and creation timestamp of
the stored record are untouched.  The stored record after the update is
`commitMapping now m (applyUpdate upd m)` put in place of `m`. -/
theorem update_status_field_semantics (st : DBState) (mid : String)
    (upd : RequirementStatusUpdate) (now : Nat) (m : RequirementMapping)
    (hfind : st.mappings.find? (fun x => x.id = mid) = some m) :
    ((update_requirement_status st mid upd now).1.mappings =
      updateFirst (fun x => x.id = mid)
        (fun _ => commitMapping now m (applyUpdate upd m)) st.mappings) ∧
    (upd.notes = none →
      (commitMapping now m (applyUpdate upd m)).notes = m.notes) ∧
    (∀ s, upd.notes = some s →
      (commitMapping now m (applyUpdate upd m)).notes = some s) ∧
    (upd.updated_by = none →
      (commitMapping now m (applyUpdate upd m)).updated_by = m.updated_by) ∧
    (∀ s, upd.updated_by = some s →
      (commitMapping now m (applyUpdate upd m)).updated_by = some s) ∧
    (commitMapping now m (applyUpdate upd m)).ai_system_id = m.ai_system_id ∧
    (commitMapping now m (applyUpdate upd m)).requirement_id = m.requirement_id ∧
    (commitMapping now m (applyUpdate upd m)).created_at = m.created_at := by
  refine ⟨?_, ?_, ?_, ?_, ?_, ?_, ?_, ?_⟩
  · simp only [update_requirement_status, hfind]
  · intro h; rw [commitMapping_notes]; simp [applyUpdate, h]
  · intro s h; rw [commitMapping_notes]; simp [applyUpdate, h]
  · intro h; rw [commitMapping_updated_by]; simp [applyUpdate, h]
  · intro s h; rw [commitMapping_updated_by]; simp [applyUpdate, h]
  · rw [commitMapping_ai_system_id]; rfl
  · rw [commitMapping_requirement_id]; rfl
  · rw [commitMapping_created_at]; rfl

/-- Witness for C6: a status-only update of `notedMapping` keeps its notes
and updater; the stored record afterwards still carries them. -/
theorem update_status_field_semantics_witness :
    notedSt.mappings.find? (fun x => x.id = "m1") = some notedMapping ∧
    statusOnlyUpdate.notes = none ∧
    statusOnlyUpdate.updated_by = none ∧
    ((update_requirement_status notedSt "m1" statusOnlyUpdate 9).1.mappings =
      updateFirst (fun x => x.id = "m1")
        (fun _ => commitMapping 9 notedMapping (applyUpdate statusOnlyUpdate notedMapping))
        notedSt.mappings) ∧
    (commitMapping 9 notedMapping (applyUpdate statusOnlyUpdate notedMapping)).notes
      = notedMapping.notes ∧
    (commitMapping 9 notedMapping (applyUpdate statusOnlyUpdate notedMapping)).updated_by
      = notedMapping.updated_by ∧
    (commitMapping 9 notedMapping (applyUpdate statusOnlyUpdate notedMapping)).created_at
      = notedMapping.created_at := by
  have h := update_status_field_semantics notedSt "m1" statusOnlyUpdate 9 notedMapping
    (by decide)
  exact ⟨by decide, rfl, rfl, h.1, h.2.1 rfl, h.2.2.2.1 rfl, h.2.2.2.2.2.2.2⟩

/-- C7. A compliance summary, a system lookup, or a tracking-record update
aimed at an identifier that matches nothing signals "not found" (`none`) and
leaves the entire persisted state unchanged: the reads return no state at
all, and the update returns the input state untouched, with no side effect
before the existence check. -/
theorem not_found_leaves_state_unchanged (st : DBState) (sid mid : String)
    (upd : RequirementStatusUpdate) (now : Nat)
    (hsys : st.systems.find? (fun s => s.id = sid) = none)
    (hmap : st.mappings.find? (fun m => m.id = mid) = none) :
    get_ai_system st sid = none ∧
    get_system_compliance st sid = none ∧
    update_requirement_status st mid upd now = (st, none) := by
  refine ⟨?_, ?_, ?_⟩
  · simp only [get_ai_system, hsys]
  · simp only [get_system_compliance, hsys]
  · simp only [update_requirement_status, hmap]

/-- Witness for C7 at a store that knows neither the system nor the
mapping. -/
theorem not_found_leaves_state_unchanged_witness :
    seededSt.systems.find? (fun s => s.id = "ghost") = none ∧
    seededSt.mappings.find? (fun m => m.id = "ghost-map") = none ∧
    (get_ai_system seededSt "ghost" = none ∧
     get_system_compliance seededSt "ghost" = none ∧
     update_requirement_status seededSt "ghost-map" statusOnlyUpdate 3 = (seededSt, none)) :=
  ⟨by decide, by decide,
   not_found_leaves_state_unchanged seededSt "ghost" "ghost-map" statusOnlyUpdate 3
     (by decide) (by decide)⟩

/-- Counterexample to C8 as stated: a successful no-op update (same status,
notes and updater omitted) leaves the stored record's last-modified
timestamp at its old value 5 instead of the update-time clock 99, because no
column has a net change, so no UPDATE statement is emitted and the
`onupdate` default of models.py:75 never runs.  The operation still
succeeds and still reports the old and new status. -/
theorem noop_update_keeps_timestamp :
    (update_requirement_status notedSt "m1" noopUpdate 99).2.isSome = true ∧
    ((update_requirement_status notedSt "m1" noopUpdate 99).1.mappings.map
      (fun x => x.updated_at)) = [5] ∧
    (5 : Nat) ≠ 99 := by
  refine ⟨rfl, ?_, by decide⟩
  decide

/-- C8 (amended). Every successful status update returns both the old and
the new status; the stored record's last-modified timestamp is refreshed
exactly when the update makes a net change to the record (new status,
notes, or updater differing from the stored values), and a fully no-op
update leaves it unchanged. -/
theorem update_returns_transition (st : DBState) (mid : String)
    (upd : RequirementStatusUpdate) (now : Nat) (m : RequirementMapping)
    (hfind : st.mappings.find? (fun x => x.id = mid) = some m) :
    ∃ r, (update_requirement_status st mid upd now).2 = some r ∧
      r.old_status = m.status.value ∧
      r.new_status = upd.status.value ∧
      r.updated_at = (if applyUpdate upd m = m then m.updated_at else now) := by
  have hresp : (update_requirement_status st mid upd now).2 =
      some
        { mapping_id := (commitMapping now m (applyUpdate upd m)).id
          requirement_id := (commitMapping now m (applyUpdate upd m)).requirement_id
          old_status := m.status.value
          new_status := (commitMapping now m (applyUpdate upd m)).status.value
          notes := (commitMapping now m (applyUpdate upd m)).notes
          updated_by := (commitMapping now m (applyUpdate upd m)).updated_by
          updated_at := (commitMapping now m (applyUpdate upd m)).updated_at } := by
    simp only [update_requirement_status, hfind]
  refine ⟨_, hresp, rfl, ?_, ?_⟩
  · show (commitMapping now m (applyUpdate upd m)).status.value = upd.status.value
    rw [commitMapping_status]
    rfl
  · show (commitMapping now m (applyUpdate upd m)).updated_at = _
    rw [commitMapping_updated_at]

/-- Witness for the amended C8: a real status change refreshes the
timestamp to the update-time clock and reports the transition. -/
theorem update_returns_transition_witness :
    notedSt.mappings.find? (fun x => x.id = "m1") = some notedMapping ∧
    ∃ r, (update_requirement_status notedSt "m1" statusOnlyUpdate 9).2 = some r ∧
      r.old_status = notedMapping.status.value ∧
      r.new_status = statusOnlyUpdate.status.value ∧
      r.updated_at =
        (if applyUpdate statusOnlyUpdate notedMapping = notedMapping
         then notedMapping.updated_at else 9) :=
  ⟨by decide,
   update_returns_transition notedSt "m1" statusOnlyUpdate 9 notedMapping (by decide)⟩

/-- C9. The applicability resolver is deterministic: two registrations run
against the same catalog with the same risk category materialise the same
tracking records by requirement identity, whatever the system ids, fresh
mapping ids, clocks, or pre-existing store contents of each run — both
sequences of created records list exactly the applicable requirements'
ids. -/
theorem resolver_deterministic (st1 st2 : DBState)
    (input1 input2 : AISystemCreate) (sysId1 sysId2 : String)
    (mk1 mk2 : String → String) (now1 now2 : Nat)
    (hcat : st1.catalog = st2.catalog)
    (hrisk : input1.risk_category = input2.risk_category) :
    (((create_ai_system st1 input1 sysId1 mk1 now1 true).1.mappings.drop
        st1.mappings.length).map (fun m => m.requirement_id))
      = (((create_ai_system st2 input2 sysId2 mk2 now2 true).1.mappings.drop
        st2.mappings.length).map (fun m => m.requirement_id)) := by
  simp only [create_ai_system, if_true, List.drop_left, newMappingsFor,
    List.map_map]
  rw [hcat, hrisk]
  rfl

/-- Witness for C9: two registrations with different system ids, mapping-id
supplies and clocks against the seeded catalog create records for the same
requirements. -/
theorem resolver_deterministic_witness :
    seededSt.catalog = seededSt.catalog ∧
    demoInput.risk_category = demoInput.risk_category ∧
    (((create_ai_system seededSt demoInput "sys-1" (fun r => "a-" ++ r) 1 true).1.mappings.drop
        seededSt.mappings.length).map (fun m => m.requirement_id))
      = (((create_ai_system seededSt demoInput "sys-2" (fun r => "b-" ++ r) 2 true).1.mappings.drop
        seededSt.mappings.length).map (fun m => m.requirement_id)) :=
  ⟨rfl, rfl,
   resolver_deterministic seededSt seededSt demoInput demoInput "sys-1" "sys-2"
     (fun r => "a-" ++ r) (fun r => "b-" ++ r) 1 2 rfl rfl⟩

/-- Replacing the first match by a value `c` that the counted predicate
cannot distinguish from the found element leaves every `countP`
unchanged. -/
theorem countP_updateFirst (p q : α → Bool) (c m : α) :
    ∀ l : List α, l.find? p = some m → q c = q m →
      (updateFirst p (fun _ => c) l).countP q = l.countP q := by
  intro l
  induction l with
  | nil => intro h _; simp at h
  | cons x xs ih =>
    intro hfind hq
    by_cases hx : p x
    · rw [List.find?_cons_of_pos _ hx, Option.some_inj] at hfind
      subst hfind
      simp [updateFirst, hx, List.countP_cons, hq]
    · rw [List.find?_cons_of_neg _ hx] at hfind
      simp [updateFirst, hx, List.countP_cons, ih hfind hq]

/-- Every element of `updateFirst p f l` is an element of `l` or the image
under `f` of an element of `l`. -/
theorem mem_updateFirst (p : α → Bool) (f : α → α) :
    ∀ l : List α, ∀ x ∈ updateFirst p f l, x ∈ l ∨ ∃ y ∈ l, x = f y := by
  intro l
  induction l with
  | nil => intro x hx; simp [updateFirst] at hx
  | cons a as ih =>
    intro x hx
    by_cases ha : p a
    · simp only [updateFirst, ha, if_true] at hx
      rcases List.mem_cons.mp hx with rfl | hx
      · exact Or.inr ⟨a, List.mem_cons_self a as, rfl⟩
      · exact Or.inl (List.mem_cons_of_mem _ hx)
    · simp only [updateFirst, ha, if_false] at hx
      rcases List.mem_cons.mp hx with rfl | hx
      · exact Or.inl (List.mem_cons_self _ _)
      · rcases ih x hx with h | ⟨y, hy, rfl⟩
        · exact Or.inl (List.mem_cons_of_mem _ h)
        · exact Or.inr ⟨y, List.mem_cons_of_mem _ hy, rfl⟩

/-- A freshly seeded store satisfies the store invariants. -/
theorem storeInv_init (catalog : List ComplianceRequirement)
    (hnodup : (catalog.map (fun r => r.id)).Nodup) :
    StoreInv { systems := [], catalog := catalog, mappings := [] } := by
  refine ⟨hnodup, ?_, ?_⟩
  · intro m hm; simp at hm
  · intro sysId reqId; simp [PairUnique]

/-- Registration with a fresh system id preserves the store invariants —
whether or not the catalog read succeeds. -/
theorem storeInv_register (st : DBState) (hinv : StoreInv st)
    (input : AISystemCreate) (sysId : String) (mkMapId : String → String)
    (now : Nat) (ok : Bool)
    (hfresh : ∀ s ∈ st.systems, s.id ≠ sysId) :
    StoreInv (create_ai_system st input sysId mkMapId now ok).1 := by
  obtain ⟨hcat, href, huniq⟩ := hinv
  cases ok with
  | false =>
    refine ⟨hcat, ?_, huniq⟩
    intro m hm
    obtain ⟨s, hs, hsid⟩ := href m hm
    exact ⟨s, List.mem_append_left _ hs, hsid⟩
  | true =>
    refine ⟨hcat, ?_, ?_⟩
    · intro m hm
      simp only [create_ai_system, if_true, List.mem_append] at hm
      rcases hm with hm | hm
      · obtain ⟨s, hs, hsid⟩ := href m hm
        exact ⟨s, List.mem_append_left _ hs, hsid⟩
      · simp only [newMappingsFor, List.mem_map] at hm
        obtain ⟨req, -, rfl⟩ := hm
        exact ⟨_, List.mem_append_right _ (List.mem_singleton.mpr rfl), rfl⟩
    · intro S Q
      simp only [create_ai_system, if_true, List.countP_append]
      by_cases hS : S = sysId
      · subst hS
        have hold : st.mappings.countP
            (fun m => m.ai_system_id = S ∧ m.requirement_id = Q) = 0 := by
          rw [List.countP_eq_zero]
          intro m hm
          simp only [decide_eq_true_eq]
          rintro ⟨h1, -⟩
          obtain ⟨s, hs, hsid⟩ := href m hm
          exact hfresh s hs (hsid.trans h1)
        have hnew : (newMappingsFor st.catalog input.risk_category S mkMapId now).countP
            (fun m => m.ai_system_id = S ∧ m.requirement_id = Q) ≤ 1 := by
          simp only [newMappingsFor, List.countP_map]
          have hle : (applicableReqs st.catalog input.risk_category).countP
              (fun r => r.id = Q) ≤ st.catalog.countP (fun r => r.id = Q) := by
            rw [applicableReqs, List.countP_filter]
            refine List.countP_mono_left ?_
            intro a _ h
            exact (Bool.and_elim_left h)
          have hone := countP_id_le_one Q st.catalog hcat
          refine le_trans (le_of_eq ?_) (le_trans hle hone)
          refine List.countP_congr ?_
          intro r _
          simp [Function.comp]
        exact le_trans (Nat.add_le_add (le_of_eq hold) hnew) (by omega)
      · have hnew : (newMappingsFor st.catalog input.risk_category sysId mkMapId now).countP
            (fun m => m.ai_system_id = S ∧ m.requirement_id = Q) = 0 := by
          rw [List.countP_eq_zero]
          intro m hm
          simp only [newMappingsFor, List.mem_map] at hm
          obtain ⟨req, -, rfl⟩ := hm
          simp only [decide_eq_true_eq]
          rintro ⟨h1, -⟩
          exact hS (h1 ▸ rfl)
        rw [hnew, Nat.add_zero]
        exact huniq S Q

/-- A status update preserves the store invariants: it rewrites one stored
row in place, keeping its system and requirement references. -/
theorem storeInv_update (st : DBState) (hinv : StoreInv st)
    (mappingId : String) (upd : RequirementStatusUpdate) (now : Nat) :
    StoreInv (update_requirement_status st mappingId upd now).1 := by
  obtain ⟨hcat, href, huniq⟩ := hinv
  cases hfind : st.mappings.find? (fun x => x.id = mappingId) with
  | none =>
    simp only [update_requirement_status, hfind]
    exact ⟨hcat, href, huniq⟩
  | some m =>
    have hmem : m ∈ st.mappings := List.mem_of_find?_eq_some hfind
    have hai : (commitMapping now m (applyUpdate upd m)).ai_system_id = m.ai_system_id := by
      rw [commitMapping_ai_system_id]; rfl
    have hreq : (commitMapping now m (applyUpdate upd m)).requirement_id = m.requirement_id := by
      rw [commitMapping_requirement_id]; rfl
    simp only [update_requirement_status, hfind]
    refine ⟨hcat, ?_, ?_⟩
    · intro x hx
      rcases mem_updateFirst _ _ st.mappings x hx with hx' | ⟨y, -, rfl⟩
      · exact href x hx'
      · obtain ⟨s, hs, hsid⟩ := href m hmem
        exact ⟨s, hs, by rw [hsid, hai]⟩
    · intro S Q
      rw [countP_updateFirst _ _ _ m st.mappings hfind (by simp [hai, hreq])]
      exact huniq S Q

/-- Every state reachable by the specified operations satisfies the store
invariants. -/
theorem reachable_storeInv (st : DBState) (h : Reachable st) : StoreInv st := by
  induction h with
  | init catalog hnodup => exact storeInv_init catalog hnodup
  | register hst input sysId mkMapId now ok hfresh ih =>
    exact storeInv_register _ ih input sysId mkMapId now ok hfresh
  | update hst mappingId upd now ih =>
    exact storeInv_update _ ih mappingId upd now

/-- C5. In every store state reachable by the specified operations
(registration with fresh uuid4 ids, status updates, reads), at most one
tracking record references any given (system, requirement) pair. -/
theorem reachable_pair_unique (st : DBState) (h : Reachable st)
    (sysId reqId : String) :
    st.mappings.countP
      (fun m => m.ai_system_id = sysId ∧ m.requirement_id = reqId) ≤ 1 :=
  (reachable_storeInv st h).2.2 sysId reqId

/-- Witness for C5: after registering one high-risk system against the
seeded catalog, the pair (new system, `"r1"`) is tracked at most once. -/
theorem reachable_pair_unique_witness :
    Reachable (create_ai_system seededSt demoInput "sys-1" (fun r => "map-" ++ r) 7 true).1 ∧
    (create_ai_system seededSt demoInput "sys-1" (fun r => "map-" ++ r) 7 true).1.mappings.countP
      (fun m => m.ai_system_id = "sys-1" ∧ m.requirement_id = "r1") ≤ 1 := by
  have h0 : Reachable seededSt := Reachable.init [reqRisk, reqTransparency] (by decide)
  have h1 : Reachable (create_ai_system seededSt demoInput "sys-1" (fun r => "map-" ++ r) 7 true).1 :=
    Reachable.register h0 demoInput "sys-1" (fun r => "map-" ++ r) 7 true (by decide)
  exact ⟨h1, reachable_pair_unique _ h1 "sys-1" "r1"⟩

end WatchGraph
